import Mathlib

/-!
Shallow embedding of `src/include/helloworld/debug.hpp`, a leveled
logging and assertion facility built from C preprocessor macros over
`fprintf(stderr, ...)` and `std::terminate()`.

The observable behaviour of a program using the facility is modelled as a
`Trace`: the list of records written to the diagnostic (error) stream, the
list of lines written to the standard output stream, the list of
side-effect events performed by evaluating argument expressions, and a
flag recording whether `std::terminate()` has run (abnormal termination).
Each macro becomes a function `Trace → Trace`; once the trace is
terminated every operation is the identity, which models that no code
after a fatal call site runs.

An argument expression (a macro argument with possible side effects) is
modelled as `Exp`: its value together with the list of side-effect events
that one evaluation of it performs.  A macro evaluates an argument exactly
when its model appends that argument's events to the trace.
-/

namespace HelloworldDebug

/-- A source location captured at a call site: the values of `__FILE__`
and `__LINE__` at the macro invocation. -/
structure SrcLoc where
  file : String
  line : Nat
deriving DecidableEq, Repr

/-- One record written to the diagnostic stream by `stderr_print`:
the severity level string, the call-site location and the formatted
message.  `render` turns it into the actual output line. -/
structure Record where
  level : String
  loc : SrcLoc
  msg : String
deriving DecidableEq, Repr

/-- The observable state of a run: diagnostic-stream records, standard
output lines, side-effect events performed so far, and whether
`std::terminate()` has been invoked (abnormal termination). -/
structure Trace where
  err : List Record := []
  out : List String := []
  effects : List Nat := []
  terminated : Bool := false
deriving DecidableEq, Repr

/-- A macro argument expression: its value and the side-effect events one
evaluation of it performs. -/
structure Exp (α : Type) where
  val : α
  eff : List Nat
deriving DecidableEq, Repr

/-- printf-style substitution of the variadic arguments into the caller's
message template: each `%s` placeholder consumes one argument. -/
def formatChars : List Char → List String → List Char
  | [], _ => []
  | '%' :: 's' :: rest, a :: as => a.data ++ formatChars rest as
  | c :: rest, as => c :: formatChars rest as

/-- The caller's format template with the arguments substituted. -/
def format (M : String) (args : List String) : String :=
  ⟨formatChars M.data args⟩

/-- The line `fprintf(stderr, "[%s] %s:%d - " M "\n", level, __FILE__,
__LINE__, args...)` produces for a record (without the trailing
newline). -/
def render (r : Record) : String :=
  "[" ++ r.level ++ "] " ++ r.loc.file ++ ":" ++ toString r.loc.line ++ " - " ++ r.msg

/-- Modelled from the spec: `common.hpp` (included by `debug.hpp` but not
present under `src/`) supplies the `unlikely` branch hint; the spec calls
it a compile-time unlikely-branch hint, a performance advisory only,
ignorable by any implementation — so on values it is the identity. -/
def unlikely (b : Bool) : Bool := b

/-- Macro `stderr_print(level, M, ...)`: stores the level in a temporary
and performs one `fprintf` to `stderr` of
`"[%s] %s:%d - " M "\n"` with the level, the call site's `__FILE__` and
`__LINE__`, and the variadic arguments.  Evaluating the call's arguments
performs their side effects once each, and exactly one record is appended
to the diagnostic stream. -/
def stderr_print (level : String) (loc : SrcLoc) (M : String)
    (args : List (Exp String)) (t : Trace) : Trace :=
  if t.terminated then t
  else
    { t with
      effects := t.effects ++ (args.map Exp.eff).flatten
      err := t.err ++ [{ level := level, loc := loc, msg := format M (args.map Exp.val) }] }

/-- Macro `info(M, ...)`: `stderr_print("Info", M, ...)`. -/
def info (loc : SrcLoc) (M : String) (args : List (Exp String)) (t : Trace) : Trace :=
  stderr_print "Info" loc M args t

/-- Macro `warn(M, ...)`: `stderr_print("Warn", M, ...)`. -/
def warn (loc : SrcLoc) (M : String) (args : List (Exp String)) (t : Trace) : Trace :=
  stderr_print "Warn" loc M args t

/-- Macro `error(M, ...)`: `stderr_print("Error", M, ...)`. -/
def error (loc : SrcLoc) (M : String) (args : List (Exp String)) (t : Trace) : Trace :=
  stderr_print "Error" loc M args t

/-- Macro `panic(M, ...)`: `stderr_print("Panic", M, ...)`, then
`stderr_print("Panic", "Program terminated due to the error above.")`,
then `std::terminate()`.  Both expansions of `stderr_print` sit on the
invocation line, so both records carry the call site's file and line. -/
def panic (loc : SrcLoc) (M : String) (args : List (Exp String)) (t : Trace) : Trace :=
  if t.terminated then t
  else
    { stderr_print "Panic" loc "Program terminated due to the error above." []
        (stderr_print "Panic" loc M args t) with
      terminated := true }

/-- Macro `info_if(cond, ...)`: `if (cond) { info(...); }` — the condition
is evaluated exactly once; the message arguments only when it is true. -/
def info_if (loc : SrcLoc) (cond : Exp Bool) (M : String)
    (args : List (Exp String)) (t : Trace) : Trace :=
  if t.terminated then t
  else
    let t1 := { t with effects := t.effects ++ cond.eff }
    if cond.val then info loc M args t1 else t1

/-- Macro `warn_if(cond, ...)`: `if (cond) { warn(...); }`. -/
def warn_if (loc : SrcLoc) (cond : Exp Bool) (M : String)
    (args : List (Exp String)) (t : Trace) : Trace :=
  if t.terminated then t
  else
    let t1 := { t with effects := t.effects ++ cond.eff }
    if cond.val then warn loc M args t1 else t1

/-- Macro `error_if(cond, ...)`: `if (unlikely(cond)) { error(...); }`. -/
def error_if (loc : SrcLoc) (cond : Exp Bool) (M : String)
    (args : List (Exp String)) (t : Trace) : Trace :=
  if t.terminated then t
  else
    let t1 := { t with effects := t.effects ++ cond.eff }
    if unlikely cond.val then error loc M args t1 else t1

/-- Macro `panic_if(cond, ...)`: `if (unlikely(cond)) { panic(...); }`. -/
def panic_if (loc : SrcLoc) (cond : Exp Bool) (M : String)
    (args : List (Exp String)) (t : Trace) : Trace :=
  if t.terminated then t
  else
    let t1 := { t with effects := t.effects ++ cond.eff }
    if unlikely cond.val then panic loc M args t1 else t1

/-- Macro `check(cond, ...)`: `const bool __cond = cond;` captures the
condition into a temporary (evaluating it exactly once), then
`if (unlikely(!__cond)) { panic(...); }`. -/
def check (loc : SrcLoc) (cond : Exp Bool) (M : String)
    (args : List (Exp String)) (t : Trace) : Trace :=
  if t.terminated then t
  else
    let t1 := { t with effects := t.effects ++ cond.eff }
    if unlikely (!cond.val) then panic loc M args t1 else t1

/-- Macro `dcheck(cond, ...)`: `check(cond, ...)` when `NDEBUG` is not
defined (`debug = true`), expands to nothing otherwise. -/
def dcheck (debug : Bool) (loc : SrcLoc) (cond : Exp Bool) (M : String)
    (args : List (Exp String)) (t : Trace) : Trace :=
  if debug then check loc cond M args t else t

/-- Macro `dinfo(...)`: `info(...)` in debug mode, nothing in release. -/
def dinfo (debug : Bool) (loc : SrcLoc) (M : String)
    (args : List (Exp String)) (t : Trace) : Trace :=
  if debug then info loc M args t else t

/-- Macro `dwarn(...)`: `warn(...)` in debug mode, nothing in release. -/
def dwarn (debug : Bool) (loc : SrcLoc) (M : String)
    (args : List (Exp String)) (t : Trace) : Trace :=
  if debug then warn loc M args t else t

/-- Macro `derror(...)`: `error(...)` in debug mode, nothing in release. -/
def derror (debug : Bool) (loc : SrcLoc) (M : String)
    (args : List (Exp String)) (t : Trace) : Trace :=
  if debug then error loc M args t else t

/-- Macro `dpanic(...)`: `panic(...)` in debug mode, nothing in release. -/
def dpanic (debug : Bool) (loc : SrcLoc) (M : String)
    (args : List (Exp String)) (t : Trace) : Trace :=
  if debug then panic loc M args t else t

/-- Macro `dinfo_if(...)`: `info_if(...)` in debug mode, nothing in
release. -/
def dinfo_if (debug : Bool) (loc : SrcLoc) (cond : Exp Bool) (M : String)
    (args : List (Exp String)) (t : Trace) : Trace :=
  if debug then info_if loc cond M args t else t

/-- Macro `dwarn_if(...)`: `warn_if(...)` in debug mode, nothing in
release. -/
def dwarn_if (debug : Bool) (loc : SrcLoc) (cond : Exp Bool) (M : String)
    (args : List (Exp String)) (t : Trace) : Trace :=
  if debug then warn_if loc cond M args t else t

/-- Macro `derror_if(...)`: `error_if(...)` in debug mode, nothing in
release. -/
def derror_if (debug : Bool) (loc : SrcLoc) (cond : Exp Bool) (M : String)
    (args : List (Exp String)) (t : Trace) : Trace :=
  if debug then error_if loc cond M args t else t

/-- Macro `dpanic_if(...)`: `panic_if(...)` in debug mode, nothing in
release. -/
def dpanic_if (debug : Bool) (loc : SrcLoc) (cond : Exp Bool) (M : String)
    (args : List (Exp String)) (t : Trace) : Trace :=
  if debug then panic_if loc cond M args t else t

/-- One invocation of an operation of the facility, with everything the
call site supplies: the captured source location, the condition and
argument expressions, and for the `d`-prefixed family the compile-time
debug flag (`NDEBUG` not defined). -/
inductive Call where
  | info (loc : SrcLoc) (M : String) (args : List (Exp String))
  | warn (loc : SrcLoc) (M : String) (args : List (Exp String))
  | error (loc : SrcLoc) (M : String) (args : List (Exp String))
  | panic (loc : SrcLoc) (M : String) (args : List (Exp String))
  | info_if (loc : SrcLoc) (cond : Exp Bool) (M : String) (args : List (Exp String))
  | warn_if (loc : SrcLoc) (cond : Exp Bool) (M : String) (args : List (Exp String))
  | error_if (loc : SrcLoc) (cond : Exp Bool) (M : String) (args : List (Exp String))
  | panic_if (loc : SrcLoc) (cond : Exp Bool) (M : String) (args : List (Exp String))
  | check (loc : SrcLoc) (cond : Exp Bool) (M : String) (args : List (Exp String))
  | dinfo (debug : Bool) (loc : SrcLoc) (M : String) (args : List (Exp String))
  | dwarn (debug : Bool) (loc : SrcLoc) (M : String) (args : List (Exp String))
  | derror (debug : Bool) (loc : SrcLoc) (M : String) (args : List (Exp String))
  | dpanic (debug : Bool) (loc : SrcLoc) (M : String) (args : List (Exp String))
  | dinfo_if (debug : Bool) (loc : SrcLoc) (cond : Exp Bool) (M : String) (args : List (Exp String))
  | dwarn_if (debug : Bool) (loc : SrcLoc) (cond : Exp Bool) (M : String) (args : List (Exp String))
  | derror_if (debug : Bool) (loc : SrcLoc) (cond : Exp Bool) (M : String) (args : List (Exp String))
  | dpanic_if (debug : Bool) (loc : SrcLoc) (cond : Exp Bool) (M : String) (args : List (Exp String))
  | dcheck (debug : Bool) (loc : SrcLoc) (cond : Exp Bool) (M : String) (args : List (Exp String))
deriving DecidableEq

/-- The call site location an invocation captures. -/
def Call.loc : Call → SrcLoc
  | .info loc .. => loc
  | .warn loc .. => loc
  | .error loc .. => loc
  | .panic loc .. => loc
  | .info_if loc .. => loc
  | .warn_if loc .. => loc
  | .error_if loc .. => loc
  | .panic_if loc .. => loc
  | .check loc .. => loc
  | .dinfo _ loc .. => loc
  | .dwarn _ loc .. => loc
  | .derror _ loc .. => loc
  | .dpanic _ loc .. => loc
  | .dinfo_if _ loc .. => loc
  | .dwarn_if _ loc .. => loc
  | .derror_if _ loc .. => loc
  | .dpanic_if _ loc .. => loc
  | .dcheck _ loc .. => loc

/-- Execute one invocation on the current trace. -/
def exec : Call → Trace → Trace
  | .info loc M args => info loc M args
  | .warn loc M args => warn loc M args
  | .error loc M args => error loc M args
  | .panic loc M args => panic loc M args
  | .info_if loc cond M args => info_if loc cond M args
  | .warn_if loc cond M args => warn_if loc cond M args
  | .error_if loc cond M args => error_if loc cond M args
  | .panic_if loc cond M args => panic_if loc cond M args
  | .check loc cond M args => check loc cond M args
  | .dinfo debug loc M args => dinfo debug loc M args
  | .dwarn debug loc M args => dwarn debug loc M args
  | .derror debug loc M args => derror debug loc M args
  | .dpanic debug loc M args => dpanic debug loc M args
  | .dinfo_if debug loc cond M args => dinfo_if debug loc cond M args
  | .dwarn_if debug loc cond M args => dwarn_if debug loc cond M args
  | .derror_if debug loc cond M args => derror_if debug loc cond M args
  | .dpanic_if debug loc cond M args => dpanic_if debug loc cond M args
  | .dcheck debug loc cond M args => dcheck debug loc cond M args

/-- The non-fatal operations named by the spec: `info`, `warn`, `error`
and their `_if` and `d`-prefixed forms. -/
def Call.nonFatal : Call → Bool
  | .info .. => true
  | .warn .. => true
  | .error .. => true
  | .info_if .. => true
  | .warn_if .. => true
  | .error_if .. => true
  | .dinfo .. => true
  | .dwarn .. => true
  | .derror .. => true
  | .dinfo_if .. => true
  | .dwarn_if .. => true
  | .derror_if .. => true
  | _ => false

/-- The empty starting trace: nothing written, nothing evaluated, process
running. -/
def emptyTrace : Trace := {}

/-- The diagnostic records one invocation appends. -/
def errDelta (c : Call) : List Record := (exec c emptyTrace).err

/-- The side-effect events one invocation performs. -/
def effDelta (c : Call) : List Nat := (exec c emptyTrace).effects

/-- Whether one invocation, started on the empty trace, terminates the
process. -/
def termDelta (c : Call) : Bool := (exec c emptyTrace).terminated

/-- `s` ends in `suf`. -/
def endsIn (s suf : String) : Prop := ∃ p, s = p ++ suf

/-- After abnormal termination no operation runs: executing any further
invocation leaves the trace unchanged. -/
theorem exec_of_terminated (c : Call) (t : Trace) (h : t.terminated = true) :
    exec c t = t := by
  cases c <;>
    simp [exec, info, warn, error, panic, info_if, warn_if, error_if, panic_if, check,
      dinfo, dwarn, derror, dpanic, dinfo_if, dwarn_if, derror_if, dpanic_if, dcheck,
      stderr_print, h]

/-- Frame property: on a running trace, an invocation only appends — its
records, output lines, side effects and termination behaviour are those it
shows on the empty trace, independent of anything already in the trace. -/
theorem exec_frame (c : Call) (t : Trace) (h : t.terminated = false) :
    exec c t =
      { err := t.err ++ errDelta c, out := t.out,
        effects := t.effects ++ effDelta c, terminated := termDelta c } := by
  obtain ⟨e, o, f, b⟩ := t
  simp only [Trace.terminated] at h
  subst h
  cases c <;>
    simp [exec, errDelta, effDelta, termDelta, emptyTrace, info, warn, error, panic,
      info_if, warn_if, error_if, panic_if, check, dinfo, dwarn, derror, dpanic,
      dinfo_if, dwarn_if, derror_if, dpanic_if, dcheck, stderr_print, unlikely] <;>
    split_ifs <;>
    simp_all

/-- Substituting no arguments into the fixed secondary message of `panic`
leaves it unchanged (it contains no placeholder). -/
theorem format_fixed :
    format "Program terminated due to the error above." [] =
      "Program terminated due to the error above." := by
  decide

/-- A non-fatal operation never terminates the process. -/
theorem nonFatal_termDelta (c : Call) (hc : c.nonFatal = true) : termDelta c = false := by
  cases c <;>
    simp_all [Call.nonFatal, termDelta, exec, emptyTrace, info, warn, error,
      info_if, warn_if, error_if, dinfo, dwarn, derror, dinfo_if, dwarn_if, derror_if,
      stderr_print, unlikely] <;>
    split_ifs <;> simp_all

/-- Claim C1: each of `info`, `warn`, `error` appends exactly one record
to the diagnostic stream — rendered as `[<Level>] <file>:<line> -
<message>` with its own level and the call site's file and line — writes
nothing to standard output, and does not terminate the process. -/
theorem claim_C1 (loc : SrcLoc) (M : String) (args : List (Exp String)) (t : Trace)
    (h : t.terminated = false) :
    (info loc M args t).err = t.err ++ [⟨"Info", loc, format M (args.map Exp.val)⟩] ∧
    (warn loc M args t).err = t.err ++ [⟨"Warn", loc, format M (args.map Exp.val)⟩] ∧
    (error loc M args t).err = t.err ++ [⟨"Error", loc, format M (args.map Exp.val)⟩] ∧
    (info loc M args t).out = t.out ∧
    (warn loc M args t).out = t.out ∧
    (error loc M args t).out = t.out ∧
    (info loc M args t).terminated = false ∧
    (warn loc M args t).terminated = false ∧
    (error loc M args t).terminated = false ∧
    (∀ lv, render ⟨lv, loc, format M (args.map Exp.val)⟩ =
      "[" ++ lv ++ "] " ++ loc.file ++ ":" ++ toString loc.line ++ " - "
        ++ format M (args.map Exp.val)) := by
  simp [info, warn, error, stderr_print, render, h]

/-- Witness for C1 at a concrete call. -/
theorem claim_C1_witness :
    emptyTrace.terminated = false ∧
    (info ⟨"main.cpp", 10⟩ "x=%s" [⟨"7", [1]⟩] emptyTrace).err =
      emptyTrace.err ++ [⟨"Info", ⟨"main.cpp", 10⟩, format "x=%s" ["7"]⟩] :=
  ⟨rfl, (claim_C1 ⟨"main.cpp", 10⟩ "x=%s" [⟨"7", [1]⟩] emptyTrace rfl).1⟩

/-- Claim C2: `panic` appends exactly two `[Panic]` records, both with
the call-site file and line, the first ending in the caller's formatted
message and the second ending in the fixed literal, then terminates the
process abnormally; afterwards no invocation of the facility has any
effect. -/
theorem claim_C2 (loc : SrcLoc) (M : String) (args : List (Exp String)) (t : Trace)
    (h : t.terminated = false) :
    (panic loc M args t).err =
      t.err ++ [⟨"Panic", loc, format M (args.map Exp.val)⟩,
                ⟨"Panic", loc, "Program terminated due to the error above."⟩] ∧
    (panic loc M args t).terminated = true ∧
    endsIn (render ⟨"Panic", loc, format M (args.map Exp.val)⟩)
      (format M (args.map Exp.val)) ∧
    endsIn (render ⟨"Panic", loc, "Program terminated due to the error above."⟩)
      "Program terminated due to the error above." ∧
    (∀ c : Call, exec c (panic loc M args t) = panic loc M args t) := by
  have herr : (panic loc M args t).err =
      t.err ++ [⟨"Panic", loc, format M (args.map Exp.val)⟩,
                ⟨"Panic", loc, "Program terminated due to the error above."⟩] := by
    simp [panic, stderr_print, h, format_fixed]
  have hterm : (panic loc M args t).terminated = true := by
    simp [panic, h]
  exact ⟨herr, hterm,
    ⟨"[" ++ "Panic" ++ "] " ++ loc.file ++ ":" ++ toString loc.line ++ " - ", rfl⟩,
    ⟨"[" ++ "Panic" ++ "] " ++ loc.file ++ ":" ++ toString loc.line ++ " - ", rfl⟩,
    fun c => exec_of_terminated c _ hterm⟩

/-- Witness for C2 at a concrete call. -/
theorem claim_C2_witness :
    emptyTrace.terminated = false ∧
    (panic ⟨"main.cpp", 20⟩ "boom" [] emptyTrace).terminated = true :=
  ⟨rfl, (claim_C2 ⟨"main.cpp", 20⟩ "boom" [] emptyTrace rfl).2.1⟩

/-- Claim C3: `check` on a false condition produces the same diagnostic
records, the same standard output and the same abnormal termination as
`panic` with the same message and arguments. -/
theorem claim_C3 (loc : SrcLoc) (cond : Exp Bool) (M : String) (args : List (Exp String))
    (t : Trace) (h : t.terminated = false) (hc : cond.val = false) :
    (check loc cond M args t).err = (panic loc M args t).err ∧
    (check loc cond M args t).out = (panic loc M args t).out ∧
    (check loc cond M args t).terminated = (panic loc M args t).terminated := by
  simp [check, panic, stderr_print, unlikely, h, hc]

/-- Witness for C3 at a concrete call. -/
theorem claim_C3_witness :
    emptyTrace.terminated = false ∧ (Exp.mk false [5]).val = false ∧
    (check ⟨"a.cpp", 3⟩ ⟨false, [5]⟩ "bad state" [] emptyTrace).terminated =
      (panic ⟨"a.cpp", 3⟩ "bad state" [] emptyTrace).terminated :=
  ⟨rfl, rfl, (claim_C3 ⟨"a.cpp", 3⟩ ⟨false, [5]⟩ "bad state" [] emptyTrace rfl rfl).2.2⟩

/-- Claim C4: `check` on a true condition changes nothing except
performing the condition's side effects exactly once: no record, no
output, no termination. -/
theorem claim_C4 (loc : SrcLoc) (cond : Exp Bool) (M : String) (args : List (Exp String))
    (t : Trace) (h : t.terminated = false) (hc : cond.val = true) :
    check loc cond M args t = { t with effects := t.effects ++ cond.eff } := by
  simp [check, unlikely, h, hc]

/-- Witness for C4 at a concrete call. -/
theorem claim_C4_witness :
    emptyTrace.terminated = false ∧ (Exp.mk true [5]).val = true ∧
    check ⟨"a.cpp", 4⟩ ⟨true, [5]⟩ "bad state" [] emptyTrace =
      { emptyTrace with effects := emptyTrace.effects ++ [5] } :=
  ⟨rfl, rfl, claim_C4 ⟨"a.cpp", 4⟩ ⟨true, [5]⟩ "bad state" [] emptyTrace rfl rfl⟩

/-- Claim C5: with the debug flag inactive (release mode, `NDEBUG`
defined) every `d`-prefixed operation is a complete no-op on any trace:
nothing written, no termination even for `dpanic`, and no argument or
condition evaluated (no side-effect event recorded). -/
theorem claim_C5 (loc : SrcLoc) (cond : Exp Bool) (M : String)
    (args : List (Exp String)) (t : Trace) :
    dinfo false loc M args t = t ∧
    dwarn false loc M args t = t ∧
    derror false loc M args t = t ∧
    dpanic false loc M args t = t ∧
    dcheck false loc cond M args t = t ∧
    dinfo_if false loc cond M args t = t ∧
    dwarn_if false loc cond M args t = t ∧
    derror_if false loc cond M args t = t ∧
    dpanic_if false loc cond M args t = t := by
  simp [dinfo, dwarn, derror, dpanic, dcheck, dinfo_if, dwarn_if, derror_if, dpanic_if]

/-- Claim C6: with the debug flag active every `d`-prefixed operation is
exactly the corresponding base operation. -/
theorem claim_C6 (loc : SrcLoc) (cond : Exp Bool) (M : String)
    (args : List (Exp String)) (t : Trace) :
    dinfo true loc M args t = info loc M args t ∧
    dwarn true loc M args t = warn loc M args t ∧
    derror true loc M args t = error loc M args t ∧
    dpanic true loc M args t = panic loc M args t ∧
    dcheck true loc cond M args t = check loc cond M args t ∧
    dinfo_if true loc cond M args t = info_if loc cond M args t ∧
    dwarn_if true loc cond M args t = warn_if loc cond M args t ∧
    derror_if true loc cond M args t = error_if loc cond M args t ∧
    dpanic_if true loc cond M args t = panic_if loc cond M args t := by
  simp [dinfo, dwarn, derror, dpanic, dcheck, dinfo_if, dwarn_if, derror_if, dpanic_if]

/-- Claim C7: each `_if` variant evaluates the condition exactly once and
then, if it is true, performs the corresponding base operation with the
remaining arguments; if it is false, nothing is written, the process is
not terminated, and the message arguments after the condition are not
evaluated. -/
theorem claim_C7 (loc : SrcLoc) (cond : Exp Bool) (M : String) (args : List (Exp String))
    (t : Trace) (h : t.terminated = false) :
    (info_if loc cond M args t =
      if cond.val then info loc M args { t with effects := t.effects ++ cond.eff }
      else { t with effects := t.effects ++ cond.eff }) ∧
    (warn_if loc cond M args t =
      if cond.val then warn loc M args { t with effects := t.effects ++ cond.eff }
      else { t with effects := t.effects ++ cond.eff }) ∧
    (error_if loc cond M args t =
      if cond.val then error loc M args { t with effects := t.effects ++ cond.eff }
      else { t with effects := t.effects ++ cond.eff }) ∧
    (panic_if loc cond M args t =
      if cond.val then panic loc M args { t with effects := t.effects ++ cond.eff }
      else { t with effects := t.effects ++ cond.eff }) := by
  by_cases hc : cond.val <;>
    simp [info_if, warn_if, error_if, panic_if, unlikely, h, hc]

/-- Witness for C7 at a concrete call with a false condition. -/
theorem claim_C7_witness :
    emptyTrace.terminated = false ∧
    panic_if ⟨"b.cpp", 9⟩ ⟨false, [2]⟩ "no" [⟨"arg", [3]⟩] emptyTrace =
      (if (Exp.mk false [2]).val
       then panic ⟨"b.cpp", 9⟩ "no" [⟨"arg", [3]⟩]
         { emptyTrace with effects := emptyTrace.effects ++ [2] }
       else { emptyTrace with effects := emptyTrace.effects ++ [2] }) :=
  ⟨rfl, (claim_C7 ⟨"b.cpp", 9⟩ ⟨false, [2]⟩ "no" [⟨"arg", [3]⟩] emptyTrace rfl).2.2.2⟩

/-- Claim C8: every invocation of the facility writes nothing to standard
output, and every record it appends to the diagnostic stream carries one
of the four severity labels and the call site's file and line. -/
theorem claim_C8 (c : Call) (t : Trace) (h : t.terminated = false) :
    (exec c t).out = t.out ∧
    (exec c t).err = t.err ++ errDelta c ∧
    ∀ r ∈ errDelta c,
      (r.level = "Info" ∨ r.level = "Warn" ∨ r.level = "Error" ∨ r.level = "Panic") ∧
      r.loc = c.loc := by
  refine ⟨by rw [exec_frame c t h], by rw [exec_frame c t h], ?_⟩
  cases c <;>
    simp [errDelta, exec, emptyTrace, Call.loc, info, warn, error, panic, info_if,
      warn_if, error_if, panic_if, check, dinfo, dwarn, derror, dpanic, dinfo_if,
      dwarn_if, derror_if, dpanic_if, dcheck, stderr_print, unlikely] <;>
    split_ifs <;> simp_all

/-- Witness for C8 at a concrete call. -/
theorem claim_C8_witness :
    emptyTrace.terminated = false ∧
    (exec (.warn ⟨"c.cpp", 7⟩ "w" []) emptyTrace).out = emptyTrace.out :=
  ⟨rfl, (claim_C8 (.warn ⟨"c.cpp", 7⟩ "w" []) emptyTrace rfl).1⟩

/-- Claim C9: every non-fatal operation is stateless and deterministic —
on any running trace it appends exactly its own records and side effects,
independent of the trace so far, never terminates, and invoking it twice
appends the identical record list twice. -/
theorem claim_C9 (c : Call) (hc : c.nonFatal = true) (t : Trace)
    (h : t.terminated = false) :
    exec c t = { err := t.err ++ errDelta c, out := t.out,
                 effects := t.effects ++ effDelta c, terminated := false } ∧
    (exec c (exec c t)).err = t.err ++ errDelta c ++ errDelta c := by
  have h1 : exec c t = { err := t.err ++ errDelta c, out := t.out,
                         effects := t.effects ++ effDelta c, terminated := false } := by
    rw [exec_frame c t h, nonFatal_termDelta c hc]
  have h2 : (exec c t).terminated = false := by rw [h1]
  refine ⟨h1, ?_⟩
  rw [exec_frame c (exec c t) h2, h1]

/-- Witness for C9 at a concrete call. -/
theorem claim_C9_witness :
    (Call.nonFatal (.error ⟨"d.cpp", 8⟩ "e" []) = true) ∧
    emptyTrace.terminated = false ∧
    (exec (.error ⟨"d.cpp", 8⟩ "e" []) (exec (.error ⟨"d.cpp", 8⟩ "e" []) emptyTrace)).err =
      emptyTrace.err ++ errDelta (.error ⟨"d.cpp", 8⟩ "e" [])
        ++ errDelta (.error ⟨"d.cpp", 8⟩ "e" []) :=
  ⟨rfl, rfl, (claim_C9 (.error ⟨"d.cpp", 8⟩ "e" []) rfl emptyTrace rfl).2⟩

/-- Claim C10: each base operation evaluates every one of its message
arguments exactly once per call: the side-effect events it records are
exactly the concatenation, in order, of each argument's events. -/
theorem claim_C10 (loc : SrcLoc) (M : String) (args : List (Exp String)) (t : Trace)
    (h : t.terminated = false) :
    (info loc M args t).effects = t.effects ++ (args.map Exp.eff).flatten ∧
    (warn loc M args t).effects = t.effects ++ (args.map Exp.eff).flatten ∧
    (error loc M args t).effects = t.effects ++ (args.map Exp.eff).flatten ∧
    (panic loc M args t).effects = t.effects ++ (args.map Exp.eff).flatten := by
  simp [info, warn, error, panic, stderr_print, h]

/-- Witness for C10 at a concrete call with two side-effecting
arguments. -/
theorem claim_C10_witness :
    emptyTrace.terminated = false ∧
    (panic ⟨"e.cpp", 11⟩ "a=%s b=%s" [⟨"1", [7]⟩, ⟨"2", [8]⟩] emptyTrace).effects =
      emptyTrace.effects ++ ([[7], [8]] : List (List Nat)).flatten :=
  ⟨rfl, (claim_C10 ⟨"e.cpp", 11⟩ "a=%s b=%s" [⟨"1", [7]⟩, ⟨"2", [8]⟩]
    emptyTrace rfl).2.2.2⟩

end HelloworldDebug
